import Mathlib

/-!
Shallow embedding of the notes application in
`src/notes_frontend/src/App.js` (a single-page React client backed by a
remote Supabase store), together with proofs about its editor state
machine, its data-access requests, and its search debounce.

Modelling conventions:
* React component state is the record `AppState`, one field per
  `useState` hook that the claims touch (`user`, `notes`, `selectedNote`,
  `editNote`, `search`, `adding`, `loadingNotes`).
* Identifiers and timestamps are `Nat` (the code uses opaque ids and ISO
  timestamp strings whose ordering is chronological).
* Each event handler becomes a pure function from the pre-state to a
  `HandlerResult` recording the post-state, the data-access requests
  issued, the `alert` messages shown, the number of `window.confirm`
  prompts shown, and the number of `fetchNotes()` reloads triggered.
  The outcome of an awaited remote call is passed in as a parameter
  (`Option String` = error message, `none` = success), since the remote
  store is an external collaborator.
* A handler returns `none` (instead of `some result`) exactly where the
  JavaScript would dereference `null` (e.g. `user.id` with no user).
* The debounced search effect is a discrete-time timer machine: a
  pending `(deadline, capturedTerm)` pair that each keystroke cancels
  and reschedules, mirroring `clearTimeout`/`setTimeout(.., 300)`.
-/

namespace NoteKeeper

/-- One row of the `notes` table as the client sees it. -/
structure Note where
  id : Nat
  user_id : Nat
  title : String
  content : String
  updated_at : Nat
deriving DecidableEq, Repr

/-- The in-progress draft held in the `editNote` state hook. -/
structure Draft where
  title : String
  content : String
deriving DecidableEq, Repr

/-- The component state of `App` restricted to the hooks the claims are
about. `user` is the authenticated identity's id (`none` = signed out);
`adding` mirrors the `adding` flag distinguishing create mode from
edit mode. -/
structure AppState where
  user : Option Nat
  notes : List Note
  selectedNote : Option Note
  editNote : Draft
  search : String
  adding : Bool
  loadingNotes : Bool
deriving DecidableEq, Repr

/-- A data-access request issued against the remote `notes` table, with
the owner scoping the code attaches (`.eq('user_id', user.id)`). -/
inductive Request where
  | insert (user_id : Nat) (title content : String)
  | update (id user_id : Nat) (title content : String) (updated_at : Nat)
  | delete (id user_id : Nat)
deriving DecidableEq, Repr

/-- Observable outcome of running one event handler: the new component
state, every remote request issued, every `alert` shown, how many
`window.confirm` prompts were shown, and how many `fetchNotes()`
reloads were triggered. -/
structure HandlerResult where
  state : AppState
  requests : List Request
  alerts : List String
  confirms : Nat
  reloads : Nat
deriving DecidableEq, Repr

/-- The editor state machine's `Browsing` state: no note selected and
the `adding` flag off (App.js renders the placeholder pane then). -/
def browsing (s : AppState) : Prop :=
  s.adding = false ∧ s.selectedNote = none

/-- The editor state machine's `Viewing(n)` state: note `n` selected and
the `adding` flag off. -/
def viewing (s : AppState) (n : Note) : Prop :=
  s.adding = false ∧ s.selectedNote = some n

instance (s : AppState) : Decidable (browsing s) :=
  inferInstanceAs (Decidable (_ ∧ _))

instance (s : AppState) (n : Note) : Decidable (viewing s n) :=
  inferInstanceAs (Decidable (_ ∧ _))

/-- Embedding of `handleNoteSelect` (App.js lines 137-141). -/
def handleNoteSelect (note : Note) (s : AppState) : AppState :=
  { s with selectedNote := some note
           editNote := { title := note.title, content := note.content }
           adding := false }

/-- Embedding of `handleNoteAddClick` (App.js lines 144-148). -/
def handleNoteAddClick (s : AppState) : AppState :=
  { s with adding := true
           selectedNote := none
           editNote := { title := "", content := "" } }

/-- Embedding of `handleNoteEditChange` for the title field
(App.js lines 151-154). -/
def editChangeTitle (v : String) (s : AppState) : AppState :=
  { s with editNote := { s.editNote with title := v } }

/-- Embedding of `handleNoteEditChange` for the content field
(App.js lines 151-154). -/
def editChangeContent (v : String) (s : AppState) : AppState :=
  { s with editNote := { s.editNote with content := v } }

/-- Embedding of JavaScript `String.prototype.trim`: drop whitespace
from both ends (executable down to the character list, unlike the
library `String.trim`). -/
def strTrim (s : String) : String :=
  ⟨((s.data.dropWhile Char.isWhitespace).reverse.dropWhile
      Char.isWhitespace).reverse⟩

/-- The object spread `{ ...prev, ...editNote }` in the update success
branch: the draft's title and content over the selected note's other
fields (`id`, `user_id`, and the — locally stale — `updated_at`). -/
def mergeDraft (sel : Note) (d : Draft) : Note :=
  { sel with title := d.title, content := d.content }

/-- Embedding of `handleNoteSave` (App.js lines 157-196). `now` is the
timestamp `new Date().toISOString()` produced in the update branch;
`err` is the error slot of the awaited Supabase response. Returns
`none` where the JavaScript would crash dereferencing `null`
(`user.id` with no user, `selectedNote.id` with no selection in the
update branch). -/
def handleNoteSave (now : Nat) (err : Option String) (s : AppState) :
    Option HandlerResult :=
  if strTrim s.editNote.title = "" then
    some { state := s, requests := [], alerts := ["Title is required."],
           confirms := 0, reloads := 0 }
  else if s.adding then
    match s.user with
    | none => none
    | some uid =>
      let req := Request.insert uid s.editNote.title s.editNote.content
      match err with
      | none =>
        some { state := { s with adding := false }, requests := [req],
               alerts := [], confirms := 0, reloads := 1 }
      | some m =>
        some { state := s, requests := [req], alerts := [m],
               confirms := 0, reloads := 0 }
  else
    match s.selectedNote, s.user with
    | some sel, some uid =>
      let req := Request.update sel.id uid s.editNote.title
        s.editNote.content now
      let merged : Note := mergeDraft sel s.editNote
      match err with
      | none =>
        some { state := { s with selectedNote := some merged },
               requests := [req], alerts := [], confirms := 0, reloads := 1 }
      | some m =>
        some { state := s, requests := [req], alerts := [m],
               confirms := 0, reloads := 0 }
    | _, _ => none

/-- Embedding of `handleNoteDelete` (App.js lines 199-213). `confirmed`
is the user's answer to `window.confirm`; the prompt is only reached
when a note is selected. -/
def handleNoteDelete (confirmed : Bool) (err : Option String)
    (s : AppState) : Option HandlerResult :=
  match s.selectedNote with
  | none =>
    some { state := s, requests := [], alerts := [], confirms := 0,
           reloads := 0 }
  | some sel =>
    if confirmed = false then
      some { state := s, requests := [], alerts := [], confirms := 1,
             reloads := 0 }
    else
      match s.user with
      | none => none
      | some uid =>
        let req := Request.delete sel.id uid
        match err with
        | none =>
          some { state := { s with selectedNote := none },
                 requests := [req], alerts := [], confirms := 1,
                 reloads := 1 }
        | some m =>
          some { state := s, requests := [req], alerts := [m],
                 confirms := 1, reloads := 0 }

/-- Embedding of `handleLogout` (App.js lines 129-134): after the
best-effort remote `signOut`, it clears `user`, `notes`, and
`selectedNote` and touches nothing else. -/
def handleLogout (s : AppState) : AppState :=
  { s with user := none, notes := [], selectedNote := none }

/-- Embedding of the `onAuthStateChange` subscription handler
(App.js lines 45-53): sets `user` from the session, and on the
`SIGNED_OUT` event additionally clears `notes` and `selectedNote`. -/
def onAuthChange (event : String) (sessionUser : Option Nat)
    (s : AppState) : AppState :=
  let s1 := { s with user := sessionUser }
  if event = "SIGNED_OUT" then
    { s1 with notes := [], selectedNote := none }
  else s1

/-- The query descriptor `fetchNotes` builds (App.js lines 73-81): owner
scoping `.eq('user_id', uid)`, ordering by `updated_at` descending, and
the title filter `.ilike('title', '%' ++ search ++ '%')` added only
when the search term is non-empty. -/
structure NotesQuery where
  user_id : Nat
  titleFilter : Option String
deriving DecidableEq, Repr

/-- The query `fetchNotes` issues for a given owner and search term. -/
def fetchQuery (uid : Nat) (search : String) : NotesQuery :=
  { user_id := uid, titleFilter := if search = "" then none else some search }

/-- Observable outcome of one `fetchNotes` call: the new state, the one
query issued, and the alerts shown (there are none — list failures are
silent). -/
structure FetchResult where
  state : AppState
  query : NotesQuery
  alerts : List String
deriving DecidableEq, Repr

/-- Embedding of `fetchNotes` (App.js lines 71-89). `res` is the awaited
Supabase response. On error the visible collection is set to `[]`; on
success it is replaced by the data; either way `loadingNotes` ends
false, exactly one query was issued, and no alert is shown. `none`
models the `user.id` crash when no user is present. -/
def fetchNotes (res : Except String (List Note)) (s : AppState) :
    Option FetchResult :=
  match s.user with
  | none => none
  | some uid =>
    let q := fetchQuery uid s.search
    match res with
    | .error _ =>
      some { state := { s with notes := [], loadingNotes := false },
             query := q, alerts := [] }
    | .ok data =>
      some { state := { s with notes := data, loadingNotes := false },
             query := q, alerts := [] }

/-- Case-folded character list of a string, for the case-insensitive
title match. -/
def strLower (s : String) : List Char :=
  s.data.map Char.toLower

/-- First list is a leading segment of the second. -/
def matchAt : List Char → List Char → Bool
  | [], _ => true
  | _ :: _, [] => false
  | a :: as, b :: bs => a = b && matchAt as bs

/-- First list occurs contiguously somewhere inside the second. -/
def hasSub : List Char → List Char → Bool
  | needle, [] => matchAt needle []
  | needle, b :: bs => matchAt needle (b :: bs) || hasSub needle bs

/-- Case-insensitive substring test on titles, the reading of
`ilike('title', '%term%')` fixed by the spec's data-access contract. -/
def titleMatches (title term : String) : Bool :=
  hasSub (strLower term) (strLower title)

/-- Ordering used by the query: most recently updated first. -/
def byUpdatedDesc (a b : Note) : Prop :=
  b.updated_at ≤ a.updated_at

instance : DecidableRel byUpdatedDesc :=
  fun a b => Nat.decLe b.updated_at a.updated_at

instance : IsTotal Note byUpdatedDesc :=
  ⟨fun a b => (Nat.le_total b.updated_at a.updated_at)⟩

instance : IsTrans Note byUpdatedDesc :=
  ⟨fun _ _ _ hab hbc => Nat.le_trans hbc hab⟩

/-- Modelled from the spec: the remote collaborator's `listNotes`
(the Supabase query engine is not part of this repository; §6 of the
spec fixes its contract). Given the whole table `db` it keeps the rows
owned by `q.user_id`, applies the optional case-insensitive substring
title filter, and returns them ordered by `updated_at` descending. -/
def listNotes (db : List Note) (q : NotesQuery) : List Note :=
  let owned := db.filter (fun n => n.user_id == q.user_id)
  let filtered :=
    match q.titleFilter with
    | none => owned
    | some t => owned.filter (fun n => titleMatches n.title t)
  List.insertionSort byUpdatedDesc filtered

/-- State of the search-debounce effect (App.js lines 221-229): the
pending `setTimeout`, as its absolute deadline plus the search term its
`fetchNotes` closure captured, and the list of load calls fired so
far (each recorded by its term). -/
structure DebounceState where
  pending : Option (Nat × String)
  fired : List String
deriving DecidableEq, Repr

/-- A pending timer whose deadline has been reached at time `t` fires
its captured load call. -/
def fireIfDue (t : Nat) (st : DebounceState) : DebounceState :=
  match st.pending with
  | none => st
  | some (d, term) =>
    if d ≤ t then { pending := none, fired := st.fired ++ [term] }
    else st

/-- A search-term change at time `t`: the effect cleanup runs
`clearTimeout` on the previous timer (after letting an already-due one
fire) and the new effect runs `setTimeout(fetchNotes, 300)`, capturing
the new term. -/
def keystroke (t : Nat) (term : String) (st : DebounceState) :
    DebounceState :=
  { fireIfDue t st with pending := some (t + 300, term) }

/-- Process a time-ordered list of `(time, term)` search changes. -/
def keystrokes (evs : List (Nat × String)) (st : DebounceState) :
    DebounceState :=
  evs.foldl (fun acc e => keystroke e.1 e.2 acc) st

/-- Component teardown: the effect cleanup cancels the pending timer
without firing it. -/
def teardown (st : DebounceState) : DebounceState :=
  { st with pending := none }

/-- Here each change comes strictly after the previous one and strictly
within 300ms of it. -/
def rapid : Nat → List (Nat × String) → Prop
  | _, [] => True
  | prev, (t, _) :: rest => prev < t ∧ t < prev + 300 ∧ rapid t rest

/-- Time of the last change in a sequence (default `t` if empty). -/
def lastT (t : Nat) : List (Nat × String) → Nat
  | [] => t
  | (t2, _) :: rest => lastT t2 rest

/-- Term of the last change in a sequence (default `s` if empty). -/
def lastS (s : String) : List (Nat × String) → String
  | [] => s
  | (_, s2) :: rest => lastS s2 rest

/- Concrete fixtures used by the witnesses and counterexample. -/

/-- Sample persisted note owned by user 7. -/
def noteA : Note :=
  { id := 1, user_id := 7, title := "Alpha plan", content := "a",
    updated_at := 10 }

/-- Sample persisted note owned by user 7, updated later than `noteA`. -/
def noteB : Note :=
  { id := 2, user_id := 7, title := "beta PLANS", content := "b",
    updated_at := 20 }

/-- Sample note owned by a different user. -/
def noteC : Note :=
  { id := 3, user_id := 8, title := "Alpha other", content := "c",
    updated_at := 30 }

/-- Authenticated state, browsing, with one loaded note. -/
def st0 : AppState :=
  { user := some 7, notes := [noteA], selectedNote := none,
    editNote := { title := "", content := "" }, search := "",
    adding := false, loadingNotes := false }

/-- State in creating mode with a non-empty draft (reached from `st0`
via the add-note click and typing a title). -/
def stAdd : AppState :=
  editChangeTitle " Groceries " (handleNoteAddClick st0)

/-- State viewing `noteA` (reached from `st0` by selecting it). -/
def stView : AppState :=
  handleNoteSelect noteA st0

/-- `stView` after editing the draft title to one that trims non-empty
but carries surrounding whitespace. -/
def stViewEdited : AppState :=
  editChangeTitle " Alpha plan v2 " stView

instance rapidDecidable : (t : Nat) → (evs : List (Nat × String)) →
    Decidable (rapid t evs)
  | _, [] => .isTrue trivial
  | prev, (t, _) :: rest =>
    have : Decidable (rapid t rest) := rapidDecidable t rest
    inferInstanceAs (Decidable (prev < t ∧ t < prev + 300 ∧ rapid t rest))

/-! ### Theorems -/

/-- C2: for every draft whose title is empty or whitespace-only,
attempting to save issues no create or update request, shows the
validation alert, and returns the component state unchanged — so the
machine stays in `Editing` with the draft, selection, and collection
intact, whatever the remote outcome would have been. -/
theorem save_empty_title_rejected (now : Nat) (err : Option String)
    (s : AppState) (h : strTrim s.editNote.title = "") :
    handleNoteSave now err s =
      some { state := s, requests := [], alerts := ["Title is required."],
             confirms := 0, reloads := 0 } := by
  simp [handleNoteSave, h]

/-- Witness for the validation theorem at a whitespace-only title. -/
theorem save_empty_title_rejected_witness :
    strTrim (editChangeTitle "   " stView).editNote.title = "" ∧
    handleNoteSave 5 none (editChangeTitle "   " stView) =
      some { state := editChangeTitle "   " stView, requests := [],
             alerts := ["Title is required."], confirms := 0,
             reloads := 0 } :=
  ⟨by decide, save_empty_title_rejected 5 none _ (by decide)⟩

/-- C10: invoking delete while no note is selected is a complete no-op:
no confirm prompt is shown, no request is issued, and the component
state is returned unchanged. -/
theorem delete_no_selection_noop (confirmed : Bool) (err : Option String)
    (s : AppState) (h : s.selectedNote = none) :
    handleNoteDelete confirmed err s =
      some { state := s, requests := [], alerts := [], confirms := 0,
             reloads := 0 } := by
  simp [handleNoteDelete, h]

/-- Witness for the no-selection delete no-op at a concrete state. -/
theorem delete_no_selection_noop_witness :
    st0.selectedNote = none ∧
    handleNoteDelete true (some "boom") st0 =
      some { state := st0, requests := [], alerts := [], confirms := 0,
             reloads := 0 } :=
  ⟨by decide, delete_no_selection_noop true (some "boom") st0 (by decide)⟩

/-- C8: when the notes load fails, the one issued query is the usual
owner-scoped one, the visible collection becomes empty, and no alert is
shown — nothing beyond the empty list surfaces the failure, and no
second query is issued. -/
theorem load_failure_empties_collection (e : String) (uid : Nat)
    (s : AppState) (hu : s.user = some uid) :
    fetchNotes (Except.error e) s =
      some { state := { s with notes := [], loadingNotes := false },
             query := fetchQuery uid s.search, alerts := [] } := by
  simp [fetchNotes, hu]

/-- Witness for the load-failure theorem at a concrete state. -/
theorem load_failure_empties_collection_witness :
    st0.user = some 7 ∧
    fetchNotes (Except.error "network down") st0 =
      some { state := { st0 with notes := [], loadingNotes := false },
             query := fetchQuery 7 st0.search, alerts := [] } :=
  ⟨by decide, load_failure_empties_collection "network down" 7 st0 (by decide)⟩

/-- C1: with a title that trims non-empty and a successful remote call,
saving in creating mode (no target note) issues exactly one insert owned
by the current user, lands in `Browsing`, and triggers one reload;
saving in editing mode issues exactly one update carrying the draft
title, content, and the fresh timestamp, scoped to the target note's id
and the current user, lands in `Viewing` of the locally merged note
(its `updated_at` is refreshed by the reload), and triggers one
reload. -/
theorem save_success_transitions (now uid : Nat) (s : AppState)
    (hu : s.user = some uid) (ht : ¬ strTrim s.editNote.title = "") :
    (s.adding = true → s.selectedNote = none →
      handleNoteSave now none s =
        some { state := { s with adding := false },
               requests :=
                 [Request.insert uid s.editNote.title s.editNote.content],
               alerts := [], confirms := 0, reloads := 1 } ∧
      browsing { s with adding := false }) ∧
    (∀ sel, s.adding = false → s.selectedNote = some sel →
      handleNoteSave now none s =
        some { state :=
                 { s with selectedNote := some (mergeDraft sel s.editNote) },
               requests := [Request.update sel.id uid s.editNote.title
                 s.editNote.content now],
               alerts := [], confirms := 0, reloads := 1 } ∧
      viewing { s with selectedNote := some (mergeDraft sel s.editNote) }
        (mergeDraft sel s.editNote)) := by
  constructor
  · intro ha hn
    refine ⟨?_, rfl, hn⟩
    simp [handleNoteSave, ht, ha, hu]
  · intro sel ha hs
    refine ⟨?_, ha, rfl⟩
    simp [handleNoteSave, ht, ha, hu, hs]

/-- Witness for the save-success theorem: creating mode from the
concrete add-mode state. -/
theorem save_success_transitions_witness :
    stAdd.user = some 7 ∧ ¬ strTrim stAdd.editNote.title = "" ∧
    (handleNoteSave 42 none stAdd =
       some { state := { stAdd with adding := false },
              requests :=
                [Request.insert 7 stAdd.editNote.title stAdd.editNote.content],
              alerts := [], confirms := 0, reloads := 1 } ∧
     browsing { stAdd with adding := false }) :=
  ⟨by decide, by decide,
    (save_success_transitions 42 7 stAdd (by decide) (by decide)).1
      (by decide) (by decide)⟩

/-- C5: when the remote call reports failure, each of insert, update,
and delete returns the component state exactly unchanged, has issued
exactly the one failed request (no retry), triggers no reload, and
surfaces the failure message as an alert. -/
theorem remote_failure_preserves_state (now uid : Nat) (m : String)
    (s : AppState) (hu : s.user = some uid)
    (ht : ¬ strTrim s.editNote.title = "") :
    (s.adding = true →
      handleNoteSave now (some m) s =
        some { state := s,
               requests :=
                 [Request.insert uid s.editNote.title s.editNote.content],
               alerts := [m], confirms := 0, reloads := 0 }) ∧
    (∀ sel, s.adding = false → s.selectedNote = some sel →
      handleNoteSave now (some m) s =
        some { state := s,
               requests := [Request.update sel.id uid s.editNote.title
                 s.editNote.content now],
               alerts := [m], confirms := 0, reloads := 0 }) ∧
    (∀ sel, s.selectedNote = some sel →
      handleNoteDelete true (some m) s =
        some { state := s, requests := [Request.delete sel.id uid],
               alerts := [m], confirms := 1, reloads := 0 }) := by
  refine ⟨fun ha => ?_, fun sel ha hs => ?_, fun sel hs => ?_⟩
  · simp [handleNoteSave, ht, ha, hu]
  · simp [handleNoteSave, ht, ha, hu, hs]
  · simp [handleNoteDelete, hs, hu]

/-- Witness for the failure-semantics theorem: a failed delete at the
concrete viewing state. -/
theorem remote_failure_preserves_state_witness :
    stViewEdited.user = some 7 ∧
    ¬ strTrim stViewEdited.editNote.title = "" ∧
    handleNoteDelete true (some "boom") stViewEdited =
      some { state := stViewEdited,
             requests := [Request.delete noteA.id 7],
             alerts := ["boom"], confirms := 1, reloads := 0 } :=
  ⟨by decide, by decide,
    (remote_failure_preserves_state 3 7 "boom" stViewEdited (by decide)
      (by decide)).2.2 noteA (by decide)⟩

/-- C7: deleting the viewed note shows exactly one confirm prompt;
accepting it with a successful remote call issues one delete scoped to
the note's id and the current user, clears the selection, lands in
`Browsing`, and triggers one reload; declining it returns the state
unchanged, still `Viewing` the note, with no request issued. -/
theorem delete_confirmation_flow (uid : Nat) (sel : Note)
    (err : Option String) (s : AppState) (hu : s.user = some uid)
    (hs : s.selectedNote = some sel) (hv : s.adding = false) :
    (handleNoteDelete true none s =
       some { state := { s with selectedNote := none },
              requests := [Request.delete sel.id uid], alerts := [],
              confirms := 1, reloads := 1 } ∧
     browsing { s with selectedNote := none }) ∧
    (handleNoteDelete false err s =
       some { state := s, requests := [], alerts := [], confirms := 1,
              reloads := 0 } ∧
     viewing s sel) := by
  refine ⟨⟨?_, hv, rfl⟩, ?_, hv, hs⟩
  · simp [handleNoteDelete, hs, hu]
  · simp [handleNoteDelete, hs]

/-- Witness for the delete-confirmation theorem: the accepted branch at
the concrete viewing state. -/
theorem delete_confirmation_flow_witness :
    stView.user = some 7 ∧ stView.selectedNote = some noteA ∧
    stView.adding = false ∧
    handleNoteDelete true none stView =
      some { state := { stView with selectedNote := none },
             requests := [Request.delete noteA.id 7], alerts := [],
             confirms := 1, reloads := 1 } :=
  ⟨by decide, by decide, by decide,
    (delete_confirmation_flow 7 noteA (some "x") stView (by decide)
      (by decide) (by decide)).1.1⟩

/-- C9: when the draft title trims non-empty but differs from its
trimmed form, a successful save sends the title verbatim: the trim is
only the validation test, and both the insert and the update request
carry `editNote.title` itself, not its trimmed form. -/
theorem save_sends_title_verbatim (now uid : Nat) (s : AppState)
    (hu : s.user = some uid) (ht : ¬ strTrim s.editNote.title = "")
    (hw : s.editNote.title ≠ strTrim s.editNote.title) :
    (s.adding = true →
      (handleNoteSave now none s).map HandlerResult.requests =
        some [Request.insert uid s.editNote.title s.editNote.content]) ∧
    (∀ sel, s.adding = false → s.selectedNote = some sel →
      (handleNoteSave now none s).map HandlerResult.requests =
        some [Request.update sel.id uid s.editNote.title
          s.editNote.content now]) ∧
    s.editNote.title ≠ strTrim s.editNote.title := by
  refine ⟨fun ha => ?_, fun sel ha hs => ?_, hw⟩
  · simp [handleNoteSave, ht, ha, hu]
  · simp [handleNoteSave, ht, ha, hu, hs]

/-- Witness for the verbatim-title theorem: the insert branch at the
concrete add-mode state, whose draft title is padded with spaces. -/
theorem save_sends_title_verbatim_witness :
    stAdd.user = some 7 ∧ ¬ strTrim stAdd.editNote.title = "" ∧
    stAdd.editNote.title ≠ strTrim stAdd.editNote.title ∧
    (handleNoteSave 42 none stAdd).map HandlerResult.requests =
      some [Request.insert 7 stAdd.editNote.title stAdd.editNote.content] :=
  ⟨by decide, by decide, by decide,
    (save_sends_title_verbatim 42 7 stAdd (by decide) (by decide)
      (by decide)).1 (by decide)⟩

/-- C4 counterexample: from the authenticated creating-mode state
`stAdd` (a non-empty draft, `adding` on), an explicit logout does clear
the user, collection, and selection, but leaves the `adding` flag set
and the draft intact — so the resulting state is not `Browsing` and the
draft is not cleared, against the claim. -/
theorem signout_keeps_draft_cex :
    (handleLogout stAdd).user = none ∧
    (handleLogout stAdd).adding = true ∧
    (handleLogout stAdd).editNote =
      { title := " Groceries ", content := "" } ∧
    ¬ browsing (handleLogout stAdd) := by
  decide

/-- C4 (amended): both an explicit logout and a `SIGNED_OUT`
notification clear the identity, empty the collection, and clear the
selection from any authenticated state, but leave the draft, the
`adding` flag, and the search term untouched; the editor is therefore
in `Browsing` afterwards exactly when the `adding` flag was already
off (while unauthenticated only the auth view renders). -/
theorem signout_clears_session_state (uid : Nat) (s : AppState)
    (hu : s.user = some uid) :
    ((handleLogout s).user = none ∧ (handleLogout s).notes = [] ∧
     (handleLogout s).selectedNote = none ∧
     (handleLogout s).editNote = s.editNote ∧
     (handleLogout s).adding = s.adding ∧
     (handleLogout s).search = s.search) ∧
    ((onAuthChange "SIGNED_OUT" none s).user = none ∧
     (onAuthChange "SIGNED_OUT" none s).notes = [] ∧
     (onAuthChange "SIGNED_OUT" none s).selectedNote = none ∧
     (onAuthChange "SIGNED_OUT" none s).editNote = s.editNote ∧
     (onAuthChange "SIGNED_OUT" none s).adding = s.adding) ∧
    (s.adding = false →
      browsing (handleLogout s) ∧
      browsing (onAuthChange "SIGNED_OUT" none s)) := by
  have hon : onAuthChange "SIGNED_OUT" none s =
      { s with user := none, notes := [], selectedNote := none } := by
    simp [onAuthChange]
  rw [hon]
  exact ⟨⟨rfl, rfl, rfl, rfl, rfl, rfl⟩, ⟨rfl, rfl, rfl, rfl, rfl⟩,
    fun ha => ⟨⟨ha, rfl⟩, ha, rfl⟩⟩

/-- Witness for the amended sign-out theorem at the concrete viewing
state. -/
theorem signout_clears_session_state_witness :
    stView.user = some 7 ∧
    ((handleLogout stView).user = none ∧ (handleLogout stView).notes = [] ∧
     (handleLogout stView).selectedNote = none ∧
     (handleLogout stView).editNote = stView.editNote ∧
     (handleLogout stView).adding = stView.adding ∧
     (handleLogout stView).search = stView.search) :=
  ⟨by decide, (signout_clears_session_state 7 stView (by decide)).1⟩

/-- C3: every notes load issues exactly one query, owner-scoped to the
current user, ordered by `updated_at` descending, whose title filter is
present exactly when the search term is non-empty; under the spec's
data-access contract for the remote store, the rows that query requests
are precisely the owner's rows whose titles contain the term as a
case-insensitive substring (all the owner's rows for the empty term),
in `updated_at`-descending order. -/
theorem load_owner_scoped_sorted (db : List Note)
    (res : Except String (List Note)) (uid : Nat) (s : AppState)
    (hu : s.user = some uid) :
    (fetchNotes res s).map FetchResult.query =
      some (fetchQuery uid s.search) ∧
    fetchQuery uid s.search =
      { user_id := uid,
        titleFilter := if s.search = "" then none else some s.search } ∧
    (listNotes db (fetchQuery uid s.search)).Perm
      (db.filter fun n =>
        n.user_id == uid &&
          (s.search == "" || titleMatches n.title s.search)) ∧
    (listNotes db (fetchQuery uid s.search)).Sorted byUpdatedDesc := by
  refine ⟨?_, rfl, ?_, ?_⟩
  · cases res <;> simp [fetchNotes, hu]
  · by_cases h : s.search = ""
    · have hq : fetchQuery uid s.search =
          { user_id := uid, titleFilter := none } := by
        simp [fetchQuery, h]
      rw [hq]
      show (List.insertionSort byUpdatedDesc
        (db.filter fun n => n.user_id == uid)).Perm _
      refine (List.perm_insertionSort _ _).trans ?_
      have : (db.filter fun n => n.user_id == uid) =
          db.filter (fun n =>
            n.user_id == uid &&
              (s.search == "" || titleMatches n.title s.search)) := by
        apply List.filter_congr
        intro n _
        simp [h]
      rw [← this]
    · have hq : fetchQuery uid s.search =
          { user_id := uid, titleFilter := some s.search } := by
        simp [fetchQuery, h]
      rw [hq]
      show (List.insertionSort byUpdatedDesc
        ((db.filter fun n => n.user_id == uid).filter
          (fun n => titleMatches n.title s.search))).Perm _
      refine (List.perm_insertionSort _ _).trans ?_
      rw [List.filter_filter]
      have hne : (s.search == "") = false := by
        simp [h]
      have : (db.filter fun n =>
            titleMatches n.title s.search && n.user_id == uid) =
          db.filter (fun n =>
            n.user_id == uid &&
              (s.search == "" || titleMatches n.title s.search)) := by
        apply List.filter_congr
        intro n _
        simp [hne, Bool.and_comm]
      rw [← this]
  · exact List.sorted_insertionSort byUpdatedDesc _

/-- Witness for the load theorem at a concrete database and a concrete
searching state: the non-empty term "plan" matches both of user 7's
notes case-insensitively and excludes user 8's note. -/
theorem load_owner_scoped_sorted_witness :
    ({ st0 with search := "plan" } : AppState).user = some 7 ∧
    (listNotes [noteA, noteB, noteC] (fetchQuery 7 "plan")).Perm
      ([noteA, noteB, noteC].filter fun n =>
        n.user_id == 7 && (("plan" == "") || titleMatches n.title "plan")) ∧
    (listNotes [noteA, noteB, noteC] (fetchQuery 7 "plan")).Sorted
      byUpdatedDesc :=
  ⟨by decide,
    (load_owner_scoped_sorted [noteA, noteB, noteC] (Except.ok []) 7
      { st0 with search := "plan" } (by decide)).2.2.1,
    (load_owner_scoped_sorted [noteA, noteB, noteC] (Except.ok []) 7
      { st0 with search := "plan" } (by decide)).2.2.2⟩

/-- A debounce timer scheduled at `t0` survives, unfired, through any
burst of later keystrokes each arriving strictly before the previous
deadline: the pending timer ends as the last keystroke's deadline with
the last term captured, and nothing fires along the way. -/
theorem keystrokes_rapid (evs : List (Nat × String)) :
    ∀ (t0 : Nat) (s0 : String) (f0 : List String), rapid t0 evs →
      keystrokes evs ⟨some (t0 + 300, s0), f0⟩ =
        ⟨some (lastT t0 evs + 300, lastS s0 evs), f0⟩ := by
  induction evs with
  | nil => intro t0 s0 f0 _; rfl
  | cons e rest ih =>
    intro t0 s0 f0 h
    obtain ⟨t1, s1⟩ := e
    obtain ⟨h1, h2, h3⟩ := h
    have hnd : ¬ (t0 + 300 ≤ t1) := by omega
    have hstep : keystroke t1 s1 ⟨some (t0 + 300, s0), f0⟩ =
        ⟨some (t1 + 300, s1), f0⟩ := by
      simp [keystroke, fireIfDue, hnd]
    have hfold : keystrokes ((t1, s1) :: rest) ⟨some (t0 + 300, s0), f0⟩ =
        keystrokes rest (keystroke t1 s1 ⟨some (t0 + 300, s0), f0⟩) := rfl
    rw [hfold, hstep, ih t1 s1 f0 h3]
    rfl

/-- C6: for a burst of search changes in which each change arrives
strictly within 300ms of the previous one, no load fires during the
burst; the single pending timer carries the last change's deadline and
its captured term, so when the deadline is reached exactly one load
fires, using the final term; every change resets the pending deadline
to its own time plus 300; and a teardown at any time before the
deadline cancels the timer so no load ever occurs. -/
theorem debounce_trailing_edge (t1 : Nat) (s1 : String)
    (rest : List (Nat × String)) (h : rapid t1 rest) :
    keystrokes ((t1, s1) :: rest) ⟨none, []⟩ =
      ⟨some (lastT t1 rest + 300, lastS s1 rest), []⟩ ∧
    fireIfDue (lastT t1 rest + 300)
        (keystrokes ((t1, s1) :: rest) ⟨none, []⟩) =
      ⟨none, [lastS s1 rest]⟩ ∧
    (∀ t, t < lastT t1 rest + 300 →
      teardown (fireIfDue t (keystrokes ((t1, s1) :: rest) ⟨none, []⟩)) =
        ⟨none, []⟩) ∧
    (∀ t term st, (keystroke t term st).pending = some (t + 300, term)) := by
  have h0 : keystrokes ((t1, s1) :: rest) ⟨none, []⟩ =
      ⟨some (lastT t1 rest + 300, lastS s1 rest), []⟩ := by
    have hfold : keystrokes ((t1, s1) :: rest) (⟨none, []⟩ : DebounceState) =
        keystrokes rest ⟨some (t1 + 300, s1), []⟩ := rfl
    rw [hfold, keystrokes_rapid rest t1 s1 [] h]
  refine ⟨h0, ?_, ?_, fun t term st => rfl⟩
  · rw [h0]; simp [fireIfDue]
  · intro t ht
    rw [h0]
    have hnd : ¬ (lastT t1 rest + 300 ≤ t) := by omega
    simp [fireIfDue, teardown, hnd]

/-- Witness for the debounce theorem: three keystrokes at 0ms, 100ms,
and 200ms collapse into the single pending load for "abc" due at
500ms. -/
theorem debounce_trailing_edge_witness :
    rapid 0 [(100, "ab"), (200, "abc")] ∧
    keystrokes [(0, "a"), (100, "ab"), (200, "abc")] ⟨none, []⟩ =
      ⟨some (lastT 0 [(100, "ab"), (200, "abc")] + 300,
             lastS "a" [(100, "ab"), (200, "abc")]), []⟩ :=
  ⟨by decide,
    (debounce_trailing_edge 0 "a" [(100, "ab"), (200, "abc")]
      (by decide)).1⟩

end NoteKeeper
